import Mathlib

/-!
Shallow embedding of the mmpose webcam dataflow core:
  tools/webcam/webcam_apis/utils/buffer.py   (BufferManager and its operations)
  tools/webcam/webcam_apis/nodes/node.py     (Node construction and scheduling loop)

Buffers are modelled as Python `multiprocessing.Queue` values: a capacity
(`maxsize`, where 0 means unbounded, as in Python where any non-positive
maxsize means unbounded) and a FIFO list of items (head = oldest).  The
registry is the insertion-ordered dictionary `self._buffers`, modelled as an
association list with unique keys.  Blocking calls (a `put` on a full queue
or a `get` on an empty queue, with `block=True, timeout=None`) cannot return
in a sequential model; they are modelled as an explicit `blocked` outcome.
Python exceptions are modelled as explicit error values.
-/

set_option autoImplicit false

/-- Python exceptions that the modelled code can raise, by class and message. -/
inductive PyErr where
  | valueError (msg : String)
  | typeError (msg : String)
  | keyError (key : String)
  | notImplementedError (msg : String)
deriving DecidableEq, Repr

/-- Lookup in a Python dict modelled as an association list (first match). -/
def dictGet {v : Type} : List (String × v) → String → Option v
  | [], _ => none
  | (k, x) :: rest, name => if k = name then some x else dictGet rest name

/-- Python dict assignment `d[k] = x`: overwrite in place if the key exists,
otherwise append (insertion order is preserved, as in Python dicts). -/
def dictSet {v : Type} : List (String × v) → String → v → List (String × v)
  | [], k, x => [(k, x)]
  | (k0, x0) :: rest, k, x =>
    if k0 = k then (k0, x) :: rest else (k0, x0) :: dictSet rest k x

/-- A `multiprocessing.Queue`: capacity (`0` = unbounded) and FIFO contents. -/
structure PyQueue (A : Type) where
  maxsize : Nat
  items : List A
deriving DecidableEq, Repr

/-- Python `Queue.full()`: true iff the queue is bounded and at capacity. -/
def PyQueue.full {A : Type} (q : PyQueue A) : Bool :=
  decide (0 < q.maxsize) && decide (q.maxsize ≤ q.items.length)

/-- Python `Queue.empty()`. -/
def PyQueue.empty {A : Type} (q : PyQueue A) : Bool :=
  q.items.isEmpty

/-- The buffer registry `BufferManager`: the dict `self._buffers`. -/
structure BufferManager (A : Type) where
  buffers : List (String × PyQueue A)
deriving DecidableEq, Repr

/-- A fresh `BufferManager()` with no registered buffer. -/
def BufferManager.mkEmpty (A : Type) : BufferManager A := ⟨[]⟩

/-- Python `name in manager` (`BufferManager.__contains__`). -/
def BufferManager.contains {A : Type} (m : BufferManager A) (name : String) : Bool :=
  (dictGet m.buffers name).isSome

/-- The error message raised by the `check_buffer_registered(exist=True)`
decorator when the named buffer is not registered. -/
def notRegisteredMsg (fn name : String) : String :=
  "Fail to call " ++ fn ++ ": buffer \"" ++ name ++ "\" is not registered."

/-- The error message raised by the `check_buffer_registered(exist=False)`
decorator when the named buffer is already registered. -/
def alreadyRegisteredMsg (fn name : String) : String :=
  "Fail to call " ++ fn ++ ": buffer \"" ++ name ++ "\" is already registered."

/-- `BufferManager.register_buffer(name, maxsize=0)`: guarded by
`check_buffer_registered(False)`; creates a fresh queue under `name`. -/
def BufferManager.register_buffer {A : Type} (m : BufferManager A)
    (name : String) (maxsize : Nat) : Except PyErr (BufferManager A) :=
  if m.contains name then
    .error (.valueError (alreadyRegisteredMsg "register_buffer" name))
  else
    .ok ⟨dictSet m.buffers name ⟨maxsize, []⟩⟩

/-- Outcome of a blocking `put` (`block=True, timeout=None`, as the sources
always call it): success with the new registry state, an indefinite block on
a full bounded queue, or a raised exception. -/
inductive PutResult (A : Type) where
  | ok (m : BufferManager A)
  | blocked
  | raised (e : PyErr)
deriving DecidableEq, Repr

/-- `BufferManager.put(name, item)`: guarded by `check_buffer_registered()`;
then `Queue.put(item, block=True, timeout=None)`, which blocks while full. -/
def BufferManager.put {A : Type} (m : BufferManager A) (name : String) (item : A) :
    PutResult A :=
  match dictGet m.buffers name with
  | none => .raised (.valueError (notRegisteredMsg "put" name))
  | some q =>
    if q.full then .blocked
    else .ok ⟨dictSet m.buffers name ⟨q.maxsize, q.items ++ [item]⟩⟩

/-- `BufferManager.try_put(name, item)`: guarded by `check_buffer_registered()`;
`Queue.put_nowait` under `try/except queue.Full`, returning a Bool and never
blocking.  On `queue.Full` the registry is left unchanged. -/
def BufferManager.try_put {A : Type} (m : BufferManager A) (name : String) (item : A) :
    Except PyErr (Bool × BufferManager A) :=
  match dictGet m.buffers name with
  | none => .error (.valueError (notRegisteredMsg "try_put" name))
  | some q =>
    if q.full then .ok (false, m)
    else .ok (true, ⟨dictSet m.buffers name ⟨q.maxsize, q.items ++ [item]⟩⟩)

/-- Outcome of a blocking `get` (`block=True, timeout=None`, as the sources
always call it): the dequeued item with the new registry state, an indefinite
block on an empty queue, or a raised exception. -/
inductive GetResult (A : Type) where
  | ok (item : A) (m : BufferManager A)
  | blocked
  | raised (e : PyErr)
deriving DecidableEq, Repr

/-- `BufferManager.get(name)`: guarded by `check_buffer_registered()`; then
`Queue.get(block=True, timeout=None)`, which dequeues the oldest item and
blocks while the queue is empty. -/
def BufferManager.get {A : Type} (m : BufferManager A) (name : String) : GetResult A :=
  match dictGet m.buffers name with
  | none => .raised (.valueError (notRegisteredMsg "get" name))
  | some q =>
    match q.items with
    | [] => .blocked
    | x :: xs => .ok x ⟨dictSet m.buffers name ⟨q.maxsize, xs⟩⟩

/-- `BufferManager.is_empty(name)`: guarded by `check_buffer_registered()`. -/
def BufferManager.is_empty {A : Type} (m : BufferManager A) (name : String) :
    Except PyErr Bool :=
  match dictGet m.buffers name with
  | none => .error (.valueError (notRegisteredMsg "is_empty" name))
  | some q => .ok q.empty

/-- `BufferManager.is_full(name)`: guarded by `check_buffer_registered()`. -/
def BufferManager.is_full {A : Type} (m : BufferManager A) (name : String) :
    Except PyErr Bool :=
  match dictGet m.buffers name with
  | none => .error (.valueError (notRegisteredMsg "is_full" name))
  | some q => .ok q.full

/-- The dict comprehension in `get_sub_manager`:
`{name: self._buffers[name] for name in buffer_names}`; subscripting a dict
with a missing key raises `KeyError`. -/
def collectBuffers {A : Type} (m : BufferManager A) :
    List String → Except PyErr (List (String × PyQueue A))
  | [] => .ok []
  | name :: rest =>
    match dictGet m.buffers name with
    | none => .error (.keyError name)
    | some q =>
      match collectBuffers m rest with
      | .error e => .error e
      | .ok tail => .ok ((name, q) :: tail)

/-- `BufferManager.get_sub_manager(buffer_names)`: builds the restricted dict,
then evaluates `BufferManager(buffers)`.  `BufferManager.__init__` is declared
as `def __init__(self)` and accepts no `buffers` argument, so that constructor
call raises `TypeError` unconditionally. -/
def BufferManager.get_sub_manager {A : Type} (m : BufferManager A)
    (buffer_names : List String) : Except PyErr (BufferManager A) :=
  match collectBuffers m buffer_names with
  | .error e => .error e
  | .ok _ =>
    .error (.typeError "__init__() takes 1 positional argument but 2 were given")

/-- `BufferManager.get_info()`: the name-to-size snapshot. -/
def BufferManager.get_info {A : Type} (m : BufferManager A) : List (String × Nat) :=
  m.buffers.map (fun p => (p.1, p.2.items.length))

/-!
The Node side (`nodes/node.py`).  Real-time aspects (the FPS limiter, the
`StopWatch`, `time.sleep`) are wall-clock effects with no influence on data
state; they appear only as labelled outcomes (`slept`) or opaque data (the
`info` string of a route record).  The payload class `Message` lives outside
the two source files, so it is modelled from the spec.
-/

/-- Modelled from the spec: a route record appended to a payload at each hop,
carrying the node identity and a per-node metrics blob (rate and timestamp,
opaque here since they are wall-clock readings). -/
structure RouteRecord where
  node : Option String
  info : String
deriving DecidableEq, Repr

/-- Modelled from the spec: the payload type `Message` (external to the two
source files) carries a transform output plus an accumulating list of route
records.  `truthy` models the Python truth value of the message object. -/
structure Message (B : Type) where
  data : B
  route_info : List RouteRecord
  truthy : Bool
deriving DecidableEq, Repr

/-- Modelled from the spec: `Message.update_route_info(node, info)` appends one
route record for this hop. -/
def Message.update_route_info {B : Type} (msg : Message B)
    (node : Option String) (info : String) : Message B :=
  { msg with route_info := msg.route_info ++ [⟨node, info⟩] }

/-- Python truth value of a transform result `output_msg`: `None` is falsy, a
message has the truth value of the object. -/
def outputTruthy {B : Type} : Option (Message B) → Bool
  | none => false
  | some msg => msg.truthy

/-- The `enable_key` argument: a string or an int (an ascii code). -/
inductive HotKey where
  | str (s : String)
  | int (n : Int)
deriving DecidableEq, Repr

/-- Python truthiness of a hot key value: `0` and `""` are falsy. -/
def HotKey.truthy : HotKey → Bool
  | .str s => decide (s ≠ "")
  | .int n => decide (n ≠ 0)

/-- Python truthiness of `self.enable_key` (`if self.enable_key:`): `None`,
`0` and `""` all count as not set, consistently in `__init__`, `set_runner`
and the toggle registration. -/
def keyTruthy : Option HotKey → Bool
  | none => false
  | some k => k.truthy

/-- One record of `self.input_buffers`, as built by `register_input_buffer`. -/
structure InputBinding where
  buffer_name : String
  input_name : String
  essential : Bool
deriving DecidableEq, Repr

/-- The data state of a `Node` set up by `Node.__init__`.  The wall-clock
fields (`max_fps`, `input_check_interval`, the `StopWatch`) and the runner
and listener plumbing do not affect the buffer dataflow and are not part of
the state. -/
structure NodeCore where
  name : Option String
  enable_key : Option HotKey
  enabled : Bool
  input_buffers : List InputBinding
  output_buffers : List String
deriving DecidableEq, Repr

/-- `Node.__init__(name, enable_key, ...)`: sets `_enabled = True` and empty
binding lists, then raises `NotImplementedError` if `enable_key` is truthy
and the subclass has not overridden `bypass`
(`is_method_overridden('bypass', Node, self.__class__)`, modelled by the
`bypass_overridden` flag; the class name in the message is elided). -/
def nodeInit (name : Option String) (enable_key : Option HotKey)
    (bypass_overridden : Bool) : Except PyErr NodeCore :=
  if keyTruthy enable_key && !bypass_overridden then
    .error (.notImplementedError
      ("The node does not support toggling" ++
       "enable but got argument enable_key. To support toggling" ++
       "enable, please override the bypass method of the node."))
  else
    .ok { name := name, enable_key := enable_key, enabled := true,
          input_buffers := [], output_buffers := [] }

/-- `Node.register_input_buffer(buffer_name, input_name, essential)`:
appends one binding record to `self.input_buffers`. -/
def NodeCore.register_input_buffer (n : NodeCore)
    (buffer_name input_name : String) (essential : Bool) : NodeCore :=
  { n with input_buffers := n.input_buffers ++ [⟨buffer_name, input_name, essential⟩] }

/-- `Node.register_output_buffer(buffer_name)`: appends one record per name
to `self.output_buffers`. -/
def NodeCore.register_output_buffer (n : NodeCore) (buffer_names : List String) :
    NodeCore :=
  { n with output_buffers := n.output_buffers ++ buffer_names }

/-- Outcome of `Node._get_input_from_buffer`: `(False, None)` with the
registry state left behind (`notReady`), an indefinite block inside a
blocking `get`, an uncaught exception, or `(True, result)`. -/
inductive GatherOutcome (A : Type) where
  | notReady (m : BufferManager A)
  | blocked (m : BufferManager A)
  | raised (e : PyErr) (m : BufferManager A)
  | ready (result : List (String × Option A)) (m : BufferManager A)
deriving DecidableEq, Repr

/-- The first loop of `_get_input_from_buffer`: for every essential binding,
`buffer_manager.is_empty(buffer_name)`; `ok false` means some essential
buffer is empty (the method returns `(False, None)`), `error` propagates the
`ValueError` of an unregistered name. -/
def essentialsReady {A : Type} (m : BufferManager A) :
    List InputBinding → Except PyErr Bool
  | [] => .ok true
  | b :: bs =>
    if b.essential then
      match m.is_empty b.buffer_name with
      | .error e => .error e
      | .ok true => .ok false
      | .ok false => essentialsReady m bs
    else essentialsReady m bs

/-- The default result dict of `_get_input_from_buffer`:
`{input_name: None for each binding}` (a dict comprehension, so a duplicated
input name keeps one entry). -/
def defaultResult (A : Type) (bindings : List InputBinding) :
    List (String × Option A) :=
  bindings.foldl (fun d b => dictSet d b.input_name none) []

/-- The fetch loop of `_get_input_from_buffer`: for each binding in order,
`data = buffer_manager.get(buffer_name)` inside
`try ... except (IndexError, KeyError)`.  The `race` oracle models, per
binding position, a concurrent consumer making `Queue.get` raise one of the
caught exception classes (this is the race the handler anticipates); the
registration guard of `BufferManager.get` fires first, so an unregistered
name raises `ValueError`, which the handler does not catch.  Without a race,
`get` blocks on an empty queue.  On a caught exception: an essential binding
returns `(False, None)` at once (keeping whatever the loop consumed so far),
an inessential one resolves to `None`. -/
def fetchLoop {A : Type} (race : Nat → Bool) :
    List InputBinding → Nat → BufferManager A → List (String × Option A) →
    GatherOutcome A
  | [], _, m, result => .ready result m
  | b :: bs, i, m, result =>
    match dictGet m.buffers b.buffer_name with
    | none => .raised (.valueError (notRegisteredMsg "get" b.buffer_name)) m
    | some q =>
      if race i then
        if b.essential then .notReady m
        else fetchLoop race bs (i + 1) m (dictSet result b.input_name none)
      else
        match q.items with
        | [] => .blocked m
        | x :: xs =>
          fetchLoop race bs (i + 1)
            ⟨dictSet m.buffers b.buffer_name ⟨q.maxsize, xs⟩⟩
            (dictSet result b.input_name (some x))

/-- `Node._get_input_from_buffer`: the essential readiness check, then the
default result dict, then the fetch loop. -/
def get_input_from_buffer {A : Type} (bindings : List InputBinding)
    (m : BufferManager A) (race : Nat → Bool) : GatherOutcome A :=
  match essentialsReady m bindings with
  | .error e => .raised e m
  | .ok false => .notReady m
  | .ok true => fetchLoop race bindings 0 m (defaultResult A bindings)

/-- Which transform a completed iteration invoked. -/
inductive TransformKind where
  | processK
  | bypassK
deriving DecidableEq, Repr

/-- Outcome of one iteration of `Node.run`.  `slept` is the not-ready path:
`time.sleep(self.input_check_interval)` followed by `continue` (the fixed
retry delay).  `putBlocked` is a blocking `put` stalled on a full output
buffer (backpressure), with the registry as already mutated by earlier puts
of the same dispatch loop. -/
inductive RunOutcome (B : Type) where
  | slept (m : BufferManager (Message B))
  | gatherBlocked (m : BufferManager (Message B))
  | gatherRaised (e : PyErr) (m : BufferManager (Message B))
  | bypassRaised (e : PyErr) (m : BufferManager (Message B))
  | putBlocked (kind : TransformKind) (out : Option (Message B))
      (m : BufferManager (Message B))
  | putRaised (kind : TransformKind) (e : PyErr) (out : Option (Message B))
      (m : BufferManager (Message B))
  | done (kind : TransformKind) (out : Option (Message B))
      (m : BufferManager (Message B))
deriving DecidableEq, Repr

/-- The dispatch loop of `Node.run`: a blocking
`self.runner.buffer_manager.put(buffer_name, output_msg)` per registered
output buffer, in binding order. -/
def dispatchLoop {B : Type} (kind : TransformKind) (msg : Message B) :
    List String → BufferManager (Message B) → RunOutcome B
  | [], m => .done kind (some msg) m
  | name :: rest, m =>
    match m.put name msg with
    | .ok m1 => dispatchLoop kind msg rest m1
    | .blocked => .putBlocked kind (some msg) m
    | .raised e => .putRaised kind e (some msg) m

/-- The tail of a loop iteration after the transform ran: `if output_msg:`
dispatch to every output buffer, else fall through with no buffer touched. -/
def dispatchPhase {B : Type} (n : NodeCore) (kind : TransformKind)
    (out : Option (Message B)) (m : BufferManager (Message B)) : RunOutcome B :=
  match out with
  | none => .done kind none m
  | some msg =>
    if msg.truthy then dispatchLoop kind msg n.output_buffers m
    else .done kind (some msg) m

/-- One iteration of the `while True` loop of `Node.run`, parametrised by the
subclass transforms: `processFn` models `self.process`; `bypassFn` is `some`
exactly when the subclass overrode `bypass` (the base method raises
`NotImplementedError`); `info` is the opaque `_get_node_info()` blob (FPS and
timestamp); `race` is the fetch-race oracle of `get_input_from_buffer`.
Control flow follows the source: gather; if not ready, sleep and retry; if
disabled, `bypass`; else `process` and, when the output is truthy, append the
route record; finally, when the output is truthy, a blocking put per output
buffer. -/
def runIteration {B : Type} (n : NodeCore)
    (processFn : List (String × Option (Message B)) → Option (Message B))
    (bypassFn : Option (List (String × Option (Message B)) → Option (Message B)))
    (info : String) (m : BufferManager (Message B)) (race : Nat → Bool) :
    RunOutcome B :=
  match get_input_from_buffer n.input_buffers m race with
  | .notReady m1 => .slept m1
  | .blocked m1 => .gatherBlocked m1
  | .raised e m1 => .gatherRaised e m1
  | .ready result m1 =>
    if n.enabled then
      let out0 := processFn result
      let out :=
        match out0 with
        | none => none
        | some msg =>
          if msg.truthy then some (msg.update_route_info n.name info)
          else some msg
      dispatchPhase n .processK out m1
    else
      match bypassFn with
      | none => .bypassRaised (.notImplementedError "bypass") m1
      | some f => dispatchPhase n .bypassK (f result) m1

/-- True iff the iteration outcome shows `bypass` was invoked. -/
def RunOutcome.usedBypass {B : Type} : RunOutcome B → Bool
  | .bypassRaised _ _ => true
  | .putBlocked .bypassK _ _ => true
  | .putRaised .bypassK _ _ _ => true
  | .done .bypassK _ _ => true
  | _ => false

/-- True iff the iteration outcome shows `process` was invoked. -/
def RunOutcome.usedProcess {B : Type} : RunOutcome B → Bool
  | .putBlocked .processK _ _ => true
  | .putRaised .processK _ _ _ => true
  | .done .processK _ _ => true
  | _ => false

/-!
Helper lemmas shared by the claim theorems.
-/

/-- Reading a dict after writing key `k` gives the written value at `k` and
the old value elsewhere. -/
theorem dictGet_dictSet {v : Type} (k k2 : String) (x : v) :
    ∀ d : List (String × v),
      dictGet (dictSet d k x) k2 = if k = k2 then some x else dictGet d k2
  | [] => by
    simp only [dictSet, dictGet]
  | (k0, x0) :: rest => by
    by_cases h0 : k0 = k
    · subst h0
      by_cases h1 : k0 = k2
      · subst h1
        simp [dictSet, dictGet]
      · simp [dictSet, dictGet, h1]
    · by_cases h1 : k0 = k2
      · subst h1
        have hk : k ≠ k0 := fun h => h0 h.symm
        simp [dictSet, dictGet, h0, hk]
      · simp [dictSet, dictGet, h0, h1, dictGet_dictSet k k2 x rest]

/-- The not-registered message of a short operation name never coincides with
the already-registered message of `register_buffer`: the lengths disagree. -/
theorem valueError_msgs_distinct (name fn : String)
    (h : notRegisteredMsg fn name = alreadyRegisteredMsg "register_buffer" name)
    (hfn : fn.length ≤ 14) : False := by
  have hlen := congrArg String.length h
  simp only [notRegisteredMsg, alreadyRegisteredMsg, String.length_append] at hlen
  have e1 : ("Fail to call " : String).length = 13 := rfl
  have e2 : (": buffer \"" : String).length = 10 := rfl
  have e3 : ("\" is not registered." : String).length = 20 := rfl
  have e4 : ("register_buffer" : String).length = 15 := rfl
  have e5 : ("\" is already registered." : String).length = 24 := rfl
  rw [e1, e2, e3, e4, e5] at hlen
  omega

/-- `dispatchLoop` reports the transform kind it was given, whatever the put
outcomes: it never reports a bypass unless handed `bypassK`. -/
theorem dispatchLoop_usedBypass {B : Type} (kind : TransformKind) (msg : Message B) :
    ∀ (outs : List String) (m : BufferManager (Message B)),
      (dispatchLoop kind msg outs m).usedBypass = decide (kind = .bypassK)
  | [], m => by cases kind <;> simp [dispatchLoop, RunOutcome.usedBypass]
  | name :: rest, m => by
    cases hp : m.put name msg with
    | ok m2 =>
      simpa [dispatchLoop, hp] using dispatchLoop_usedBypass kind msg rest m2
    | blocked => cases kind <;> simp [dispatchLoop, hp, RunOutcome.usedBypass]
    | raised e => cases kind <;> simp [dispatchLoop, hp, RunOutcome.usedBypass]

/-- `dispatchLoop` reports `process` exactly when handed `processK`. -/
theorem dispatchLoop_usedProcess {B : Type} (kind : TransformKind) (msg : Message B) :
    ∀ (outs : List String) (m : BufferManager (Message B)),
      (dispatchLoop kind msg outs m).usedProcess = decide (kind = .processK)
  | [], m => by cases kind <;> simp [dispatchLoop, RunOutcome.usedProcess]
  | name :: rest, m => by
    cases hp : m.put name msg with
    | ok m2 =>
      simpa [dispatchLoop, hp] using dispatchLoop_usedProcess kind msg rest m2
    | blocked => cases kind <;> simp [dispatchLoop, hp, RunOutcome.usedProcess]
    | raised e => cases kind <;> simp [dispatchLoop, hp, RunOutcome.usedProcess]

/-- `dispatchPhase` reports a bypass exactly when handed `bypassK`. -/
theorem dispatchPhase_usedBypass {B : Type} (n : NodeCore) (kind : TransformKind)
    (out : Option (Message B)) (m : BufferManager (Message B)) :
    (dispatchPhase n kind out m).usedBypass = decide (kind = .bypassK) := by
  cases out with
  | none => cases kind <;> simp [dispatchPhase, RunOutcome.usedBypass]
  | some msg =>
    cases ht : msg.truthy
    · cases kind <;> simp [dispatchPhase, ht, RunOutcome.usedBypass]
    · simpa [dispatchPhase, ht] using dispatchLoop_usedBypass kind msg n.output_buffers m

/-- `dispatchPhase` reports `process` exactly when handed `processK`. -/
theorem dispatchPhase_usedProcess {B : Type} (n : NodeCore) (kind : TransformKind)
    (out : Option (Message B)) (m : BufferManager (Message B)) :
    (dispatchPhase n kind out m).usedProcess = decide (kind = .processK) := by
  cases out with
  | none => cases kind <;> simp [dispatchPhase, RunOutcome.usedProcess]
  | some msg =>
    cases ht : msg.truthy
    · cases kind <;> simp [dispatchPhase, ht, RunOutcome.usedProcess]
    · simpa [dispatchPhase, ht] using dispatchLoop_usedProcess kind msg n.output_buffers m

/-- The essential readiness loop returns `ok false` whenever some essential
binding has an empty buffer and every essential binding is registered. -/
theorem essentialsReady_ok_false {A : Type} (m : BufferManager A) :
    ∀ bs : List InputBinding,
      (∀ b ∈ bs, b.essential = true → m.contains b.buffer_name = true) →
      (∃ b ∈ bs, b.essential = true ∧ m.is_empty b.buffer_name = .ok true) →
      essentialsReady m bs = .ok false
  | [] => by
    intro _ hex
    simp at hex
  | b :: bs => by
    intro hreg hex
    by_cases hb : b.essential = true
    · have hc := hreg b (by simp) hb
      obtain ⟨q, hq⟩ : ∃ q, dictGet m.buffers b.buffer_name = some q := by
        cases hd : dictGet m.buffers b.buffer_name with
        | none => simp [BufferManager.contains, hd] at hc
        | some q => exact ⟨q, rfl⟩
      cases hqe : q.empty with
      | true => simp [essentialsReady, hb, BufferManager.is_empty, hq, hqe]
      | false =>
        have hex2 : ∃ b2 ∈ bs, b2.essential = true ∧
            m.is_empty b2.buffer_name = .ok true := by
          rcases hex with ⟨b2, hmem, hess, hemp⟩
          rcases List.mem_cons.mp hmem with rfl | hmem2
          · rw [BufferManager.is_empty, hq] at hemp
            simp [hqe] at hemp
          · exact ⟨b2, hmem2, hess, hemp⟩
        have ih := essentialsReady_ok_false m bs
          (fun b2 h2 => hreg b2 (List.mem_cons_of_mem b h2)) hex2
        simp [essentialsReady, hb, BufferManager.is_empty, hq, hqe, ih]
    · have hex2 : ∃ b2 ∈ bs, b2.essential = true ∧
          m.is_empty b2.buffer_name = .ok true := by
        rcases hex with ⟨b2, hmem, hess, hemp⟩
        rcases List.mem_cons.mp hmem with rfl | hmem2
        · exact absurd hess hb
        · exact ⟨b2, hmem2, hess, hemp⟩
      have ih := essentialsReady_ok_false m bs
        (fun b2 h2 => hreg b2 (List.mem_cons_of_mem b h2)) hex2
      simp [essentialsReady, hb, ih]

/-- The dict comprehension of `get_sub_manager` succeeds whenever every
requested name is registered. -/
theorem collectBuffers_ok {A : Type} (m : BufferManager A) :
    ∀ names : List String, (∀ nm ∈ names, m.contains nm = true) →
      ∃ l, collectBuffers m names = .ok l
  | [] => fun _ => ⟨[], rfl⟩
  | nm :: rest => by
    intro h
    have hc := h nm (by simp)
    obtain ⟨q, hq⟩ : ∃ q, dictGet m.buffers nm = some q := by
      cases hd : dictGet m.buffers nm with
      | none => simp [BufferManager.contains, hd] at hc
      | some q => exact ⟨q, rfl⟩
    obtain ⟨l, hl⟩ := collectBuffers_ok m rest
      (fun x hx => h x (List.mem_cons_of_mem nm hx))
    exact ⟨(nm, q) :: l, by simp [collectBuffers, hq, hl]⟩

/-!
Claim theorems.
-/

/-- C1: the claim says `get_sub_manager` returns a restricted view sharing the
underlying queues.  The code cannot: `BufferManager.__init__` accepts no
`buffers` argument, so for every registry and every list of registered buffer
names `get_sub_manager` raises `TypeError` instead of returning a view. -/
theorem sub_manager_typeerror {A : Type} (m : BufferManager A) (names : List String)
    (h : ∀ nm ∈ names, m.contains nm = true) :
    m.get_sub_manager names =
      .error (.typeError "__init__() takes 1 positional argument but 2 were given") := by
  obtain ⟨l, hl⟩ := collectBuffers_ok m names h
  simp [BufferManager.get_sub_manager, hl]

/-- C2: the claim says an inessential binding whose buffer is empty at gather
time resolves to absent without blocking.  The code instead calls the blocking
`get` (block defaults to True and `queue.Empty` is not among the caught
exception classes), so the gather step blocks indefinitely on the empty
inessential buffer: with a single inessential binding over a registered empty
buffer and no concurrent interference, `_get_input_from_buffer` blocks and so
does the loop iteration. -/
theorem inessential_empty_blocks {B : Type} (node : NodeCore) (bn inn : String)
    (cap : Nat) (m : BufferManager (Message B))
    (hb : node.input_buffers = [⟨bn, inn, false⟩])
    (h : dictGet m.buffers bn = some ⟨cap, []⟩) :
    get_input_from_buffer node.input_buffers m (fun _ => false) = .blocked m ∧
    ∀ (pf : List (String × Option (Message B)) → Option (Message B)) bf info,
      runIteration node pf bf info m (fun _ => false) = .gatherBlocked m := by
  have h1 : get_input_from_buffer node.input_buffers m (fun _ => false) = .blocked m := by
    simp [get_input_from_buffer, hb, essentialsReady, fetchLoop, defaultResult, h]
  refine ⟨h1, fun pf bf info => ?_⟩
  simp [runIteration, h1]

/-- C3, counterexample: with an inessential binding before an essential one,
a successful first fetch followed by a raced essential fetch returns
not-ready, but the first buffer has lost its item — the buffers are not as if
the iteration never ran, refuting the "nothing discarded" part of the
claim. -/
theorem essential_race_discards_fetched_item :
    get_input_from_buffer
        [⟨"b1", "i1", false⟩, ⟨"b2", "i2", true⟩]
        (⟨[("b1", ⟨0, [(⟨1, [], true⟩ : Message Nat)]⟩),
           ("b2", ⟨0, [⟨2, [], true⟩]⟩)]⟩)
        (fun i => decide (i = 1)) =
      .notReady ⟨[("b1", ⟨0, []⟩), ("b2", ⟨0, [⟨2, [], true⟩]⟩)]⟩ ∧
    (⟨[("b1", ⟨0, ([] : List (Message Nat))⟩), ("b2", ⟨0, [⟨2, [], true⟩]⟩)]⟩ :
        BufferManager (Message Nat)) ≠
      ⟨[("b1", ⟨0, [⟨1, [], true⟩]⟩), ("b2", ⟨0, [⟨2, [], true⟩]⟩)]⟩ := by
  constructor
  · rfl
  · decide

/-- C3, amended: when the fetch for an essential binding fails after the
readiness check (the race with another consumer that the handler catches),
the iteration is treated as not-ready and the loop sleeps and retries;
however, items fetched from earlier bindings during that iteration are
consumed and discarded — the buffers are not restored. -/
theorem essential_race_treated_not_ready {B : Type} (node : NodeCore)
    (n1 n2 i1 i2 : String) (c1 : Nat) (x : Message B) (xs : List (Message B))
    (q2 : PyQueue (Message B)) (m : BufferManager (Message B))
    (hb : node.input_buffers = [⟨n1, i1, false⟩, ⟨n2, i2, true⟩])
    (h1 : dictGet m.buffers n1 = some ⟨c1, x :: xs⟩)
    (h2 : dictGet m.buffers n2 = some q2)
    (hq2 : q2.items ≠ [])
    (h12 : n1 ≠ n2) :
    get_input_from_buffer node.input_buffers m (fun i => decide (i = 1)) =
      .notReady ⟨dictSet m.buffers n1 ⟨c1, xs⟩⟩ ∧
    ∀ (pf : List (String × Option (Message B)) → Option (Message B)) bf info,
      runIteration node pf bf info m (fun i => decide (i = 1)) =
        .slept ⟨dictSet m.buffers n1 ⟨c1, xs⟩⟩ := by
  have hqe : q2.empty = false := by
    simp [PyQueue.empty, hq2]
  have hg : get_input_from_buffer node.input_buffers m (fun i => decide (i = 1)) =
      .notReady ⟨dictSet m.buffers n1 ⟨c1, xs⟩⟩ := by
    simp [get_input_from_buffer, hb, essentialsReady, BufferManager.is_empty,
      h1, h2, hqe, fetchLoop, defaultResult, dictGet_dictSet, h12]
  exact ⟨hg, fun pf bf info => by simp [runIteration, hg]⟩

/-- C4: when every essential binding is registered and some essential buffer
is empty at gather time, the gather returns not-ready with the registry
unchanged (nothing consumed from any buffer), and the loop iteration sleeps
for the fixed check interval and retries, invoking neither `process` nor
`bypass` for any transform functions. -/
theorem essential_empty_not_ready {B : Type} (node : NodeCore)
    (m : BufferManager (Message B)) (race : Nat → Bool)
    (hreg : ∀ b ∈ node.input_buffers, b.essential = true →
      m.contains b.buffer_name = true)
    (hemp : ∃ b ∈ node.input_buffers, b.essential = true ∧
      m.is_empty b.buffer_name = .ok true) :
    get_input_from_buffer node.input_buffers m race = .notReady m ∧
    ∀ (pf : List (String × Option (Message B)) → Option (Message B)) bf info,
      runIteration node pf bf info m race = .slept m := by
  have h1 := essentialsReady_ok_false m node.input_buffers hreg hemp
  constructor
  · simp [get_input_from_buffer, h1]
  · intro pf bf info
    simp [runIteration, get_input_from_buffer, h1]

/-- C5: `register_buffer` on an already-registered name raises the duplicate
registration `ValueError`; every name-based operation (`put`, `try_put`,
`get`, `is_empty`, `is_full`) on an unregistered name raises the
not-registered `ValueError`; and each of the latter errors is distinguishable
from the duplicate-registration error. -/
theorem registry_misuse_distinguishable {A : Type} (m : BufferManager A)
    (name : String) (cap : Nat) (item : A) :
    (m.contains name = true →
      m.register_buffer name cap =
        .error (.valueError (alreadyRegisteredMsg "register_buffer" name))) ∧
    (m.contains name = false →
      m.put name item = .raised (.valueError (notRegisteredMsg "put" name)) ∧
      m.try_put name item = .error (.valueError (notRegisteredMsg "try_put" name)) ∧
      m.get name = .raised (.valueError (notRegisteredMsg "get" name)) ∧
      m.is_empty name = .error (.valueError (notRegisteredMsg "is_empty" name)) ∧
      m.is_full name = .error (.valueError (notRegisteredMsg "is_full" name))) ∧
    (PyErr.valueError (notRegisteredMsg "put" name) ≠
        .valueError (alreadyRegisteredMsg "register_buffer" name) ∧
      PyErr.valueError (notRegisteredMsg "try_put" name) ≠
        .valueError (alreadyRegisteredMsg "register_buffer" name) ∧
      PyErr.valueError (notRegisteredMsg "get" name) ≠
        .valueError (alreadyRegisteredMsg "register_buffer" name) ∧
      PyErr.valueError (notRegisteredMsg "is_empty" name) ≠
        .valueError (alreadyRegisteredMsg "register_buffer" name) ∧
      PyErr.valueError (notRegisteredMsg "is_full" name) ≠
        .valueError (alreadyRegisteredMsg "register_buffer" name)) := by
  refine ⟨?_, ?_, ?_⟩
  · intro hc
    simp [BufferManager.register_buffer, hc]
  · intro hc
    have hg : dictGet m.buffers name = none := by
      cases hd : dictGet m.buffers name with
      | none => rfl
      | some q => simp [BufferManager.contains, hd] at hc
    refine ⟨?_, ?_, ?_, ?_, ?_⟩ <;>
      simp [BufferManager.put, BufferManager.try_put, BufferManager.get,
        BufferManager.is_empty, BufferManager.is_full, hg]
  · refine ⟨?_, ?_, ?_, ?_, ?_⟩ <;>
    · intro h
      exact valueError_msgs_distinct name _ (by simpa using h) (by decide)

/-- C6: constructing a Node with a truthy `enable_key` and no overridden
`bypass` raises `NotImplementedError` immediately; otherwise construction
succeeds, with the enable flag initially true and empty binding lists.  (A
falsy key value, `0` or the empty string, counts as unset throughout the
source, which tests `if self.enable_key:`.) -/
theorem nodeInit_toggle_requires_bypass (name : Option String) (key : Option HotKey)
    (ov : Bool) :
    (keyTruthy key = true → ov = false →
      nodeInit name key ov = .error (.notImplementedError
        ("The node does not support toggling" ++
         "enable but got argument enable_key. To support toggling" ++
         "enable, please override the bypass method of the node."))) ∧
    ((keyTruthy key = false ∨ ov = true) →
      nodeInit name key ov = .ok ⟨name, key, true, [], []⟩) := by
  constructor
  · intro hk hov
    subst hov
    simp [nodeInit, hk]
  · intro h
    rcases h with h | h <;> simp [nodeInit, h]

/-- C7: starting from a fresh registry, `register_buffer`, two `put` calls and
two `get` calls on the same name round-trip the items unchanged, in
first-in-first-out order, leaving the buffer empty (capacity 0 = unbounded,
or any capacity of at least two). -/
theorem register_put_get_fifo {A : Type} (name : String) (cap : Nat) (v1 v2 : A)
    (hcap : cap = 0 ∨ 2 ≤ cap) :
    ∃ m1 m2 m3 m4 m5 : BufferManager A,
      (BufferManager.mkEmpty A).register_buffer name cap = .ok m1 ∧
      m1.put name v1 = .ok m2 ∧
      m2.put name v2 = .ok m3 ∧
      m3.get name = .ok v1 m4 ∧
      m4.get name = .ok v2 m5 ∧
      m5.is_empty name = .ok true := by
  have hf0 : (PyQueue.mk cap ([] : List A)).full = false := by
    simp [PyQueue.full]
    omega
  have hf1 : (PyQueue.mk cap [v1]).full = false := by
    simp [PyQueue.full]
    omega
  refine ⟨⟨[(name, ⟨cap, []⟩)]⟩, ⟨[(name, ⟨cap, [v1]⟩)]⟩, ⟨[(name, ⟨cap, [v1, v2]⟩)]⟩,
      ⟨[(name, ⟨cap, [v2]⟩)]⟩, ⟨[(name, ⟨cap, []⟩)]⟩, ?_, ?_, ?_, ?_, ?_, ?_⟩
  · simp [BufferManager.register_buffer, BufferManager.contains, BufferManager.mkEmpty,
      dictGet, dictSet]
  · simp [BufferManager.put, dictGet, dictSet, hf0]
  · simp [BufferManager.put, dictGet, dictSet, hf1]
  · simp [BufferManager.get, dictGet, dictSet]
  · simp [BufferManager.get, dictGet, dictSet]
  · simp [BufferManager.is_empty, dictGet, PyQueue.empty]

/-- C8: on a registered buffer, `try_put` on a full queue returns false and
leaves the registry (hence the buffer contents) unchanged; on a non-full
queue it appends the item at the tail and returns true. -/
theorem try_put_full_or_room {A : Type} (m : BufferManager A) (name : String)
    (q : PyQueue A) (item : A) (h : dictGet m.buffers name = some q) :
    (q.full = true → m.try_put name item = .ok (false, m)) ∧
    (q.full = false → m.try_put name item =
      .ok (true, ⟨dictSet m.buffers name ⟨q.maxsize, q.items ++ [item]⟩⟩)) := by
  refine ⟨fun hf => ?_, fun hf => ?_⟩ <;> simp [BufferManager.try_put, h, hf]

/-- C9: a freshly constructed Node has its enable flag true, the flag is
untouched by binding registration, and an enabled node never invokes `bypass`
in a loop iteration and invokes `process` in every iteration whose gather is
ready. -/
theorem fresh_node_enabled_runs_process {B : Type} (nm : Option String)
    (key : Option HotKey) (ov : Bool) (n : NodeCore)
    (h : nodeInit nm key ov = .ok n) :
    n.enabled = true ∧
    (∀ bn inn ess, (n.register_input_buffer bn inn ess).enabled = true) ∧
    (∀ outs, (n.register_output_buffer outs).enabled = true) ∧
    (∀ node : NodeCore, node.enabled = true →
      ∀ (pf : List (String × Option (Message B)) → Option (Message B)) bf info
        (m : BufferManager (Message B)) (race : Nat → Bool),
        (runIteration node pf bf info m race).usedBypass = false ∧
        (∀ res m1, get_input_from_buffer node.input_buffers m race = .ready res m1 →
          (runIteration node pf bf info m race).usedProcess = true)) := by
  have hn : n.enabled = true := by
    cases hc : (keyTruthy key && !ov) with
    | true => simp [nodeInit, hc] at h
    | false =>
      simp [nodeInit, hc] at h
      rw [← h]
  refine ⟨hn, ?_, ?_, ?_⟩
  · intro bn inn ess
    simp [NodeCore.register_input_buffer, hn]
  · intro outs
    simp [NodeCore.register_output_buffer, hn]
  · intro node hen pf bf info m race
    cases hg : get_input_from_buffer node.input_buffers m race with
    | notReady m1 =>
      refine ⟨by simp [runIteration, hg, RunOutcome.usedBypass], ?_⟩
      intro res m1 hready
      simp at hready
    | blocked m1 =>
      refine ⟨by simp [runIteration, hg, RunOutcome.usedBypass], ?_⟩
      intro res m1 hready
      simp at hready
    | raised e m1 =>
      refine ⟨by simp [runIteration, hg, RunOutcome.usedBypass], ?_⟩
      intro res m1 hready
      simp at hready
    | ready res m1 =>
      constructor
      · simp [runIteration, hg, hen, dispatchPhase_usedBypass]
      · intro res2 m2 hready
        simp [runIteration, hg, hen, dispatchPhase_usedProcess]

/-- C10: for a ready iteration whose transform output is falsy (None or a
message whose truth value is false), the iteration completes with exactly the
transform result — no route record appended to it — and the registry exactly
as the gather left it: nothing is pushed to any output buffer; this holds for
`process` and for an overridden `bypass` alike. -/
theorem falsy_output_skips_route_and_dispatch {B : Type} (node : NodeCore)
    (pf : List (String × Option (Message B)) → Option (Message B))
    (bf : Option (List (String × Option (Message B)) → Option (Message B)))
    (info : String) (m : BufferManager (Message B)) (race : Nat → Bool)
    (res : List (String × Option (Message B))) (m1 : BufferManager (Message B))
    (hready : get_input_from_buffer node.input_buffers m race = .ready res m1) :
    (node.enabled = true → outputTruthy (pf res) = false →
      runIteration node pf bf info m race = .done .processK (pf res) m1) ∧
    (∀ f, node.enabled = false → bf = some f → outputTruthy (f res) = false →
      runIteration node pf bf info m race = .done .bypassK (f res) m1) := by
  constructor
  · intro hen hf
    cases hp : pf res with
    | none => simp [runIteration, hready, hen, hp, dispatchPhase]
    | some msg =>
      have ht : msg.truthy = false := by
        rw [hp] at hf
        simpa [outputTruthy] using hf
      simp [runIteration, hready, hen, hp, ht, dispatchPhase]
  · intro f hen hbf hf
    cases hp : f res with
    | none => simp [runIteration, hready, hen, hbf, hp, dispatchPhase]
    | some msg =>
      have ht : msg.truthy = false := by
        rw [hp] at hf
        simpa [outputTruthy] using hf
      simp [runIteration, hready, hen, hbf, hp, ht, dispatchPhase]

/-!
Concrete witnesses, evaluating the definitions at explicit inputs.
-/

/-- C1 witness: a registry with one registered buffer, asked for a view of it. -/
theorem sub_manager_typeerror_witness :
    (⟨[("X", ⟨0, ([] : List Nat)⟩)]⟩ : BufferManager Nat).get_sub_manager ["X"] =
      .error (.typeError "__init__() takes 1 positional argument but 2 were given") :=
  sub_manager_typeerror ⟨[("X", ⟨0, []⟩)]⟩ ["X"] (by decide)

/-- C2 witness: one inessential binding over a registered empty buffer. -/
theorem inessential_empty_blocks_witness :
    get_input_from_buffer [⟨"b", "i", false⟩]
        (⟨[("b", ⟨0, ([] : List (Message Nat))⟩)]⟩) (fun _ => false) =
      .blocked ⟨[("b", ⟨0, []⟩)]⟩ ∧
    runIteration (B := Nat) ⟨none, none, true, [⟨"b", "i", false⟩], []⟩
        (fun _ => none) none "" ⟨[("b", ⟨0, []⟩)]⟩ (fun _ => false) =
      .gatherBlocked ⟨[("b", ⟨0, []⟩)]⟩ := by
  have h := inessential_empty_blocks (B := Nat)
    ⟨none, none, true, [⟨"b", "i", false⟩], []⟩ "b" "i" 0 ⟨[("b", ⟨0, []⟩)]⟩ rfl rfl
  exact ⟨h.1, h.2 (fun _ => none) none ""⟩

/-- C3 witness: the amended statement at the concrete raced configuration. -/
theorem essential_race_treated_not_ready_witness :
    get_input_from_buffer [⟨"b1", "i1", false⟩, ⟨"b2", "i2", true⟩]
        (⟨[("b1", ⟨0, [(⟨1, [], true⟩ : Message Nat)]⟩),
           ("b2", ⟨0, [⟨2, [], true⟩]⟩)]⟩)
        (fun i => decide (i = 1)) =
      .notReady ⟨dictSet [("b1", ⟨0, [(⟨1, [], true⟩ : Message Nat)]⟩),
           ("b2", ⟨0, [⟨2, [], true⟩]⟩)] "b1" ⟨0, []⟩⟩ ∧
    runIteration (B := Nat)
        ⟨none, none, true, [⟨"b1", "i1", false⟩, ⟨"b2", "i2", true⟩], []⟩
        (fun _ => none) none ""
        ⟨[("b1", ⟨0, [⟨1, [], true⟩]⟩), ("b2", ⟨0, [⟨2, [], true⟩]⟩)]⟩
        (fun i => decide (i = 1)) =
      .slept ⟨dictSet [("b1", ⟨0, [(⟨1, [], true⟩ : Message Nat)]⟩),
           ("b2", ⟨0, [⟨2, [], true⟩]⟩)] "b1" ⟨0, []⟩⟩ := by
  have h := essential_race_treated_not_ready (B := Nat)
    ⟨none, none, true, [⟨"b1", "i1", false⟩, ⟨"b2", "i2", true⟩], []⟩
    "b1" "b2" "i1" "i2" 0 ⟨1, [], true⟩ [] ⟨0, [⟨2, [], true⟩]⟩
    ⟨[("b1", ⟨0, [⟨1, [], true⟩]⟩), ("b2", ⟨0, [⟨2, [], true⟩]⟩)]⟩
    rfl rfl rfl (by decide) (by decide)
  exact ⟨h.1, h.2 (fun _ => none) none ""⟩

/-- C4 witness: one essential binding over a registered empty buffer. -/
theorem essential_empty_not_ready_witness :
    get_input_from_buffer [⟨"b", "i", true⟩]
        (⟨[("b", ⟨0, ([] : List (Message Nat))⟩)]⟩) (fun _ => false) =
      .notReady ⟨[("b", ⟨0, []⟩)]⟩ ∧
    runIteration (B := Nat) ⟨none, none, true, [⟨"b", "i", true⟩], []⟩
        (fun _ => none) none "" ⟨[("b", ⟨0, []⟩)]⟩ (fun _ => false) =
      .slept ⟨[("b", ⟨0, []⟩)]⟩ := by
  have h := essential_empty_not_ready (B := Nat)
    ⟨none, none, true, [⟨"b", "i", true⟩], []⟩ ⟨[("b", ⟨0, []⟩)]⟩ (fun _ => false)
    (by
      intro b hb _
      simp at hb
      subst hb
      rfl)
    ⟨⟨"b", "i", true⟩, by simp, rfl, rfl⟩
  exact ⟨h.1, h.2 (fun _ => none) none ""⟩

/-- C5 witness: a duplicate registration, an operation on an unregistered
name, and the distinguishability of the two errors, at concrete inputs. -/
theorem registry_misuse_distinguishable_witness :
    (⟨[("X", ⟨0, ([] : List Nat)⟩)]⟩ : BufferManager Nat).register_buffer "X" 0 =
      .error (.valueError (alreadyRegisteredMsg "register_buffer" "X")) ∧
    (BufferManager.mkEmpty Nat).get "X" =
      .raised (.valueError (notRegisteredMsg "get" "X")) ∧
    PyErr.valueError (notRegisteredMsg "get" "X") ≠
      .valueError (alreadyRegisteredMsg "register_buffer" "X") :=
  ⟨(registry_misuse_distinguishable (⟨[("X", ⟨0, []⟩)]⟩ : BufferManager Nat) "X" 0 0).1
      (by decide),
   ((registry_misuse_distinguishable (BufferManager.mkEmpty Nat) "X" 0 0).2.1
      (by decide)).2.2.1,
   (registry_misuse_distinguishable (BufferManager.mkEmpty Nat) "X" 0 0).2.2.2.2.1⟩

/-- C6 witness: a truthy key without bypass fails; with bypass it succeeds. -/
theorem nodeInit_toggle_requires_bypass_witness :
    nodeInit (some "n") (some (.str "e")) false = .error (.notImplementedError
      ("The node does not support toggling" ++
       "enable but got argument enable_key. To support toggling" ++
       "enable, please override the bypass method of the node.")) ∧
    nodeInit (some "n") (some (.str "e")) true =
      .ok ⟨some "n", some (.str "e"), true, [], []⟩ :=
  ⟨(nodeInit_toggle_requires_bypass (some "n") (some (.str "e")) false).1 (by decide) rfl,
   (nodeInit_toggle_requires_bypass (some "n") (some (.str "e")) true).2 (Or.inr rfl)⟩

/-- C7 witness: the round-trip on an unbounded buffer with items 1 and 2. -/
theorem register_put_get_fifo_witness :
    ∃ m1 m2 m3 m4 m5 : BufferManager Nat,
      (BufferManager.mkEmpty Nat).register_buffer "X" 0 = .ok m1 ∧
      m1.put "X" 1 = .ok m2 ∧
      m2.put "X" 2 = .ok m3 ∧
      m3.get "X" = .ok 1 m4 ∧
      m4.get "X" = .ok 2 m5 ∧
      m5.is_empty "X" = .ok true :=
  register_put_get_fifo "X" 0 1 2 (Or.inl rfl)

/-- C8 witness: a full capacity-1 buffer and a capacity-2 buffer with room. -/
theorem try_put_full_or_room_witness :
    (⟨[("X", ⟨1, [5]⟩)]⟩ : BufferManager Nat).try_put "X" 7 =
      .ok (false, ⟨[("X", ⟨1, [5]⟩)]⟩) ∧
    (⟨[("X", ⟨2, [5]⟩)]⟩ : BufferManager Nat).try_put "X" 7 =
      .ok (true, ⟨dictSet [("X", ⟨2, [5]⟩)] "X" ⟨2, [5, 7]⟩⟩) :=
  ⟨(try_put_full_or_room ⟨[("X", ⟨1, [5]⟩)]⟩ "X" ⟨1, [5]⟩ 7 rfl).1 (by decide),
   (try_put_full_or_room ⟨[("X", ⟨2, [5]⟩)]⟩ "X" ⟨2, [5]⟩ 7 rfl).2 (by decide)⟩

/-- C9 witness: a fresh node is enabled; an enabled node with a ready
essential input runs `process` and not `bypass`. -/
theorem fresh_node_enabled_runs_process_witness :
    (⟨none, none, true, [], []⟩ : NodeCore).enabled = true ∧
    (runIteration (B := Nat) ⟨none, none, true, [⟨"b", "i", true⟩], []⟩
        (fun _ => none) none "" ⟨[("b", ⟨0, [⟨1, [], true⟩]⟩)]⟩
        (fun _ => false)).usedBypass = false ∧
    (runIteration (B := Nat) ⟨none, none, true, [⟨"b", "i", true⟩], []⟩
        (fun _ => none) none "" ⟨[("b", ⟨0, [⟨1, [], true⟩]⟩)]⟩
        (fun _ => false)).usedProcess = true := by
  have T := fresh_node_enabled_runs_process (B := Nat) none none false
    ⟨none, none, true, [], []⟩ rfl
  have R := T.2.2.2 ⟨none, none, true, [⟨"b", "i", true⟩], []⟩ rfl (fun _ => none) none ""
    ⟨[("b", ⟨0, [⟨1, [], true⟩]⟩)]⟩ (fun _ => false)
  exact ⟨T.1, R.1,
    R.2 [("i", some ⟨1, [], true⟩)] ⟨[("b", ⟨0, []⟩)]⟩ (by decide)⟩

/-- C10 witness: a falsy `process` output and a falsy `bypass` output both
complete the iteration with no route record and no push to the output
buffer. -/
theorem falsy_output_skips_route_and_dispatch_witness :
    runIteration (B := Nat) ⟨none, none, true, [⟨"b", "i", true⟩], ["out"]⟩
        (fun _ => none) none "" ⟨[("b", ⟨0, [⟨1, [], true⟩]⟩)]⟩ (fun _ => false) =
      .done .processK none ⟨[("b", ⟨0, []⟩)]⟩ ∧
    runIteration (B := Nat) ⟨none, none, false, [⟨"b", "i", true⟩], ["out"]⟩
        (fun _ => some ⟨9, [], true⟩) (some (fun _ => none)) ""
        ⟨[("b", ⟨0, [⟨1, [], true⟩]⟩)]⟩ (fun _ => false) =
      .done .bypassK none ⟨[("b", ⟨0, []⟩)]⟩ :=
  ⟨(falsy_output_skips_route_and_dispatch
      ⟨none, none, true, [⟨"b", "i", true⟩], ["out"]⟩ (fun _ => none) none ""
      ⟨[("b", ⟨0, [⟨1, [], true⟩]⟩)]⟩ (fun _ => false)
      [("i", some ⟨1, [], true⟩)] ⟨[("b", ⟨0, []⟩)]⟩ (by decide)).1 rfl rfl,
   (falsy_output_skips_route_and_dispatch
      ⟨none, none, false, [⟨"b", "i", true⟩], ["out"]⟩
      (fun _ => some ⟨9, [], true⟩) (some (fun _ => none)) ""
      ⟨[("b", ⟨0, [⟨1, [], true⟩]⟩)]⟩ (fun _ => false)
      [("i", some ⟨1, [], true⟩)] ⟨[("b", ⟨0, []⟩)]⟩ (by decide)).2
      (fun _ => none) rfl rfl rfl⟩
